import Mathlib

/-!
Shallow embedding of `grader_utils/__init__.py` (class `ProcessWrapper` and
its methods `run`, `join`, `send_signal`, `is_alive`, plus the inner thread
body `target`).

Concurrency is embedded by explicit observation records: every call that the
Python code makes to `Thread.is_alive()` or to the process-group probe
`ProcessWrapper.is_alive()` is one Boolean field of `JoinObs`, sampled in
program order, and the values the background thread has written by the time
the outcome dictionary is built (`process.returncode`, `stdout_res`,
`stderr_res`) are likewise observation fields.

Python exceptions are modelled with `Except String`.  `str.format` is
modelled by `pyFormat`, which is faithful on the two points this module
exercises: `\x7b\x7d` consumes the next positional argument, and a named
field such as `\x7bself.process.pid\x7d` raises `KeyError` because no keyword
arguments are ever passed anywhere in this module.  Attribute access on the
`Popen` object is modelled by `popenAttr`, which raises `AttributeError` for
any attribute the object does not have (in particular `pd`, as written in
`send_signal`).
-/

namespace GraderUtils

/-- Python logging severities, ordered `debug < info < warning < error <
critical`. -/
inductive LogLevel where
  | debug
  | info
  | warning
  | error
  | critical
deriving DecidableEq

/-- Fuel-indexed worker for `pyFormat`.  Scans the template; `\x7b\x7d` takes
the next positional argument, `\x7bname...\x7d` raises `KeyError` on the first
dotted component of the name (no keyword arguments are ever supplied in this
module), a missing positional argument raises `IndexError`. -/
def pyFormatAux : Nat → List Char → List String → Except String (List Char)
  | 0, _, _ => Except.ok []
  | _ + 1, [], _ => Except.ok []
  | fuel + 1, c :: cs, args =>
    if c = '\x7b' then
      let field := cs.takeWhile (fun d => d != '\x7d')
      let rest := (cs.dropWhile (fun d => d != '\x7d')).drop 1
      if field.isEmpty then
        match args with
        | [] => Except.error "IndexError: Replacement index 0 out of range"
        | a :: args2 =>
          match pyFormatAux fuel rest args2 with
          | Except.ok out => Except.ok (a.toList ++ out)
          | Except.error e => Except.error e
      else
        Except.error ("KeyError: " ++ String.mk (field.takeWhile (fun d => d != '.')))
    else
      match pyFormatAux fuel cs args with
      | Except.ok out => Except.ok (c :: out)
      | Except.error e => Except.error e

/-- Model of Python `template.format(args...)` with positional arguments
only, as used throughout `grader_utils`. -/
def pyFormat (template : String) (args : List String) : Except String String :=
  match pyFormatAux (template.length + 1) template.toList args with
  | Except.ok out => Except.ok (String.mk out)
  | Except.error e => Except.error e

/-- Template of the `lg.info` call in `join` after the first liveness check
(source line 138). -/
def msgTerminating : String := "\x7b\x7d: is still alive. Terminating now..."

/-- Template of the `lg.warning` call in `join` after the grace period
(source line 145). -/
def msgSigterm : String := "\x7b\x7d: is still alive after SIGTERM. Pressing the big red button..."

/-- Template of the `lg.error` call in `join` after SIGKILL (source line
151).  Note the named field `self.process.pid`: the source passes the pid
positionally, so formatting this template raises `KeyError` on `self`. -/
def msgSigkill : String := "\x7bself.process.pid\x7d: is still alive after SIGKILL. May God have mercy on our souls..."

/-- Template of the `lg.warning` call in `send_signal` (source line 171). -/
def msgDeadSignal : String := "Couldn\x27t deliver signal to already dead process \x7b\x7d (\x7b\x7d)"

/-- Template of the `lg.error` call in `run` when `Popen` raises (source
line 125). -/
def msgPopenFail : String := "Couldn\x27t Popen command \x7b\x7d"

/-- Template of the `lg.info` call in the staged-input feeder when a stdin
write raises `IOError` (source line 108). -/
def msgWriteFail : String := "Input: \x7b\x7d failed to write to stdin due to\n\x7b\x7d"

/-- The `subprocess.Popen` handle: its pid and its `returncode` attribute
(`none` until the process has been waited on). -/
structure Popen where
  pid : Int
  returncode : Option Int
deriving DecidableEq

/-- The mutable flag fields of a `ProcessWrapper` object that `join` reads
and writes (source lines 74-94): `check_pg_alive` from the constructor
kwargs, and the four escalation flags. -/
structure PWState where
  check_pg_alive : Bool
  exit_timeout : Bool
  exit_force : Bool
  exit_timeout_pg : Bool
  exit_force_pg : Bool
deriving DecidableEq

/-- The flag state right after `__init__`: all four escalation flags
`False`. -/
def initState (check : Bool) : PWState :=
  ⟨check, false, false, false, false⟩

/-- One run's worth of liveness observations, in the order `join` samples
them, plus the values the background thread has published by collection
time.
* `t1`: `self.thread.is_alive()` at the `exit_timeout` assignment / first
  `alive()` call (lines 134-135);
* `g1`: what the group probe `is_alive()` would report at the first
  `alive()` call (used only when `check_pg_alive`);
* `t2`, `g2`: the same pair after the one-second grace `thread.join`
  (lines 142-144);
* `t3`: `self.thread.is_alive()` after SIGKILL (line 150);
* `returncode`, `stdout_res`, `stderr_res`: the fields read when the outcome
  dictionary is built (lines 154-162). -/
structure JoinObs where
  t1 : Bool
  g1 : Bool
  t2 : Bool
  g2 : Bool
  t3 : Bool
  returncode : Option Int
  stdout_res : Option String
  stderr_res : Option String
deriving DecidableEq

/-- The dictionary `join` returns (source lines 154-162). -/
structure Outcome where
  returncode : Option Int
  stdout : Option String
  stderr : Option String
  timeout : Bool
  killed : Bool
  timeout_pg : Bool
  killed_pg : Bool
deriving DecidableEq

/-- Everything observable about one `join` call: the returned dictionary,
the flag state it leaves behind, the log records it emitted, and the
`os.killpg` calls it made (signal number, target pgid). -/
structure JoinTrace where
  outcome : Outcome
  state : PWState
  logs : List (LogLevel × String)
  killpgs : List (Int × Int)
deriving DecidableEq

def SIGTERM : Int := 15

def SIGKILL : Int := 9

/-- `alive = self.is_alive if self.check_pg_alive else self.thread.is_alive`
(source line 135): the liveness function `join` consults, applied to the
current pair of samples. -/
def aliveFn (check t g : Bool) : Bool :=
  if check then g else t

/-- The dictionary literal at source lines 154-162: `returncode`,
`stdout`/`stderr` from the thread-published fields, and the four
escalation flags. -/
def mkOutcome (s : PWState) (obs : JoinObs) : Outcome :=
  ⟨obs.returncode, obs.stdout_res, obs.stderr_res,
   s.exit_timeout, s.exit_force, s.exit_timeout_pg, s.exit_force_pg⟩

/-- Flag state when `join` never enters the escalation branch: only
`exit_timeout` was (re)assigned (line 136). -/
def sQuick (s : PWState) (obs : JoinObs) : PWState :=
  { s with exit_timeout := obs.t1 }

/-- Flag state when `join` enters the escalation branch but leaves after the
grace period: additionally `exit_timeout_pg := check_pg_alive` (line 137)
and `exit_force := thread.is_alive()` (line 143). -/
def sSoft (s : PWState) (obs : JoinObs) : PWState :=
  { s with exit_timeout := obs.t1, exit_timeout_pg := s.check_pg_alive,
           exit_force := obs.t2 }

/-- Flag state when `join` reaches the SIGKILL stage: additionally
`exit_force_pg := check_pg_alive` (line 146). -/
def sHard (s : PWState) (obs : JoinObs) : PWState :=
  { s with exit_timeout := obs.t1, exit_timeout_pg := s.check_pg_alive,
           exit_force := obs.t2, exit_force_pg := s.check_pg_alive }

/-- The message actually logged at the SIGTERM stage. -/
def logTerminating (pid : Int) : String :=
  toString pid ++ ": is still alive. Terminating now..."

/-- The message actually logged at the SIGKILL stage. -/
def logSigterm (pid : Int) : String :=
  toString pid ++ ": is still alive after SIGTERM. Pressing the big red button..."

/-- `ProcessWrapper.join` (source lines 129-162).  `s0` is the flag state of
the object when `join` is entered, `p` the `Popen` handle, `obs` the
liveness/result observations of this call.  An `Except.error` is a Python
exception escaping `join`. -/
def join (s0 : PWState) (p : Popen) (obs : JoinObs) : Except String JoinTrace :=
  -- self.thread.join(timeout=self.timeout)
  let s1 : PWState := { s0 with exit_timeout := obs.t1 }
  if aliveFn s1.check_pg_alive obs.t1 obs.g1 then
    let s2 : PWState := { s1 with exit_timeout_pg := s1.check_pg_alive }
    match pyFormat msgTerminating [toString p.pid] with
    | Except.error e => Except.error e
    | Except.ok m1 =>
      -- os.killpg(self.process.pid, signal.SIGTERM); thread.join(1)
      let s3 : PWState := { s2 with exit_force := obs.t2 }
      if aliveFn s3.check_pg_alive obs.t2 obs.g2 then
        let s4 : PWState := { s3 with exit_force_pg := s3.check_pg_alive }
        match pyFormat msgSigterm [toString p.pid] with
        | Except.error e => Except.error e
        | Except.ok m2 =>
          -- os.killpg(self.process.pid, signal.SIGKILL)
          if obs.t3 then
            match pyFormat msgSigkill [toString p.pid] with
            | Except.error e => Except.error e
            | Except.ok m3 =>
              Except.ok ⟨mkOutcome s4 obs, s4,
                [(LogLevel.info, m1), (LogLevel.warning, m2), (LogLevel.error, m3)],
                [(SIGTERM, p.pid), (SIGKILL, p.pid)]⟩
          else
            Except.ok ⟨mkOutcome s4 obs, s4,
              [(LogLevel.info, m1), (LogLevel.warning, m2)],
              [(SIGTERM, p.pid), (SIGKILL, p.pid)]⟩
      else
        Except.ok ⟨mkOutcome s3 obs, s3, [(LogLevel.info, m1)], [(SIGTERM, p.pid)]⟩
  else
    Except.ok ⟨mkOutcome s1 obs, s1, [], []⟩

/-- Python `str` of an `Optional[int]` (for attribute values printed into
log messages). -/
def pyStrOptInt : Option Int → String
  | none => "None"
  | some n => toString n

/-- Attribute access on the `Popen` object, as a string for formatting.
Any attribute the object does not have raises `AttributeError` — in
particular `pd`, the misspelling in `send_signal` (source line 172). -/
def popenAttr (p : Popen) (attrName : String) : Except String String :=
  if attrName = "pid" then Except.ok (toString p.pid)
  else if attrName = "returncode" then Except.ok (pyStrOptInt p.returncode)
  else Except.error ("AttributeError: " ++ attrName)

/-- `ProcessWrapper.send_signal` (source lines 164-174).  `threadAlive` is
the `self.thread.is_alive()` sample; the result is the pair (log records,
signal deliveries `(sig, pid)` to the direct child) or the escaping Python
exception.  The dead branch evaluates `self.command[0]` and
`self.process.pd` before the format call, in Python evaluation order. -/
def send_signal (threadAlive : Bool) (command : List String) (p : Popen)
    (sig : Int) : Except String (List (LogLevel × String) × List (Int × Int)) :=
  if threadAlive then
    Except.ok ([], [(sig, p.pid)])
  else
    match command with
    | [] => Except.error "IndexError: list index out of range"
    | c0 :: _ =>
      match popenAttr p "pd" with
      | Except.error e => Except.error e
      | Except.ok a =>
        match pyFormat msgDeadSignal [c0, a] with
        | Except.error e => Except.error e
        | Except.ok m => Except.ok ([(LogLevel.warning, m)], [])

/-- Python `str` of a list of strings, for the `run` failure log message. -/
def pyStrList (command : List String) : String :=
  "[" ++ String.intercalate ", " command ++ "]"

/-- How the OS answered the `Popen` constructor call: a handle, an
`OSError` (nonexistent executable — caught, logged and re-raised at source
lines 123-126), or any other exception (e.g. the `IndexError` an empty
argument vector raises inside `Popen` — not caught by `except OSError`). -/
inductive SpawnErr where
  | oserror (msg : String)
  | other (msg : String)
deriving DecidableEq

/-- The `self.process` / `self.thread` fields of the wrapper object
(`None`/`None` after `__init__`, source lines 71-72). -/
structure ProcHandles where
  process : Option Popen
  thread : Option Unit
deriving DecidableEq

/-- Handle state right after `__init__`: no process, no waiter thread. -/
def initHandles : ProcHandles := ⟨none, none⟩

/-- `ProcessWrapper.run`, spawn part (source lines 119-127).  Returns the
handle fields after the call, the log records emitted, and `Except.error`
when a Python exception escapes.  On success the waiter thread is created
and started (`thread := some ()`); on any spawn failure the exception
propagates and neither field is assigned. -/
def run (command : List String) (h0 : ProcHandles)
    (spawn : Except SpawnErr Popen) :
    ProcHandles × List (LogLevel × String) × Except String Unit :=
  match spawn with
  | Except.error (SpawnErr.oserror m) =>
    match pyFormat msgPopenFail [pyStrList command] with
    | Except.ok lm => (h0, [(LogLevel.error, lm)], Except.error ("OSError: " ++ m))
    | Except.error f => (h0, [], Except.error f)
  | Except.error (SpawnErr.other m) => (h0, [], Except.error m)
  | Except.ok p => (⟨some p, some ()⟩, [], Except.ok ())

/-- The keyword configuration of the `execute` call made inside
`ProcessWrapper.is_alive` (source line 182): command string, the
`check_pg_alive` kwarg, whether stdout is a pipe, and the `timeout` kwarg
(absent, so `None`: the probe is not subject to the supervisor timeout). -/
structure ExecuteCall where
  command : String
  check_pg_alive : Bool
  stdout_pipe : Bool
  timeout : Option Int
deriving DecidableEq

/-- `execute('ps -Ao pgid', check_pg_alive=False, stdout=PIPE)` — the exact
call `is_alive` makes for its process-table query. -/
def is_alive_call : ExecuteCall := ⟨"ps -Ao pgid", false, true, none⟩

/-- Worker for `pyStrSplit`: scan the characters, accumulating the current
token in reverse; whitespace ends the token (empty tokens are dropped). -/
def splitWsAux : List Char → List Char → List String
  | [], acc => if acc.isEmpty then [] else [String.mk acc.reverse]
  | c :: cs, acc =>
    if c.isWhitespace then
      if acc.isEmpty then splitWsAux cs []
      else String.mk acc.reverse :: splitWsAux cs []
    else splitWsAux cs (c :: acc)

/-- Python `str.split()` with no argument: split on whitespace runs,
dropping empty tokens. -/
def pyStrSplit (s : String) : List String :=
  splitWsAux s.toList []

/-- `ProcessWrapper.is_alive` (source lines 176-183), as a function of the
helper process's captured stdout (already decoded): token-split the `ps`
output and test membership of `str(pid)`. -/
def is_alive (pid : Int) (psStdout : String) : Bool :=
  (pyStrSplit psStdout).contains (toString pid)

/-- One entry of the `delayed_inputs` list, classified the way the feeder's
`type(i) is ...` tests classify it (source lines 102-105): `int`, `float`,
`bytes`, `str`, or anything else. -/
inductive DelayedInput where
  | int (n : Int)
  | float (n : Int)
  | bytes (b : String)
  | str (s : String)
  | other
deriving DecidableEq

/-- An observable action of the feeder: a `time.sleep` or a successful
`stdin.write`. -/
inductive FeedAction where
  | sleep (n : Int)
  | write (b : String)
deriving DecidableEq

/-- The `for i in self.delayed_inputs` loop of the thread body `target`
(source lines 102-112).  `io k` tells whether the `k`-th `stdin.write`
attempt succeeds (`false` = it raises `IOError`); `w` is the number of
write attempts made so far.  Returns the actions performed and the log
records emitted.  A failed write logs and `break`s out of the loop. -/
def feedLoop : List DelayedInput → (Nat → Bool) → Nat →
    List FeedAction × List (LogLevel × String)
  | [], _, _ => ([], [])
  | DelayedInput.int n :: rest, io, w =>
    let r := feedLoop rest io w
    (FeedAction.sleep n :: r.1, r.2)
  | DelayedInput.float n :: rest, io, w =>
    let r := feedLoop rest io w
    (FeedAction.sleep n :: r.1, r.2)
  | DelayedInput.bytes b :: rest, io, w =>
    if io w then
      let r := feedLoop rest io (w + 1)
      (FeedAction.write b :: r.1, r.2)
    else
      ([], [(LogLevel.info, (pyFormat msgWriteFail [b, "IOError"]).toOption.getD "")])
  | DelayedInput.str _ :: rest, io, w => feedLoop rest io w
  | DelayedInput.other :: rest, io, w => feedLoop rest io w

/-- Number of `bytes` entries in a `delayed_inputs` list (i.e. number of
write attempts the loop would make if none failed). -/
def writeCount : List DelayedInput → Nat
  | [] => 0
  | DelayedInput.int _ :: r => writeCount r
  | DelayedInput.float _ :: r => writeCount r
  | DelayedInput.bytes _ :: r => writeCount r + 1
  | DelayedInput.str _ :: r => writeCount r
  | DelayedInput.other :: r => writeCount r

/-- Result of the whole thread body `target` (source lines 100-117): the
feeder's actions and logs, then `stdout_res`/`stderr_res` as published by
`communicate` (or left `None` under `disable_communicate`). -/
structure TargetResult where
  actions : List FeedAction
  logs : List (LogLevel × String)
  stdout_res : Option String
  stderr_res : Option String
deriving DecidableEq

/-- The thread body `target`: run the staged-input loop, then either
`process.wait()` or `communicate`, whose captured streams are `comm`. -/
def target (delayed : List DelayedInput) (io : Nat → Bool)
    (disable_communicate : Bool) (comm : Option String × Option String) :
    TargetResult :=
  let r := feedLoop delayed io 0
  if disable_communicate then ⟨r.1, r.2, none, none⟩
  else ⟨r.1, r.2, comm.1, comm.2⟩

/-- Two consecutive `join` calls on the same wrapper object, starting from
the freshly constructed flag state: `some (tr1, tr2)` when neither call
raises. -/
def secondJoin (check : Bool) (p : Popen) (obs1 obs2 : JoinObs) :
    Option (JoinTrace × JoinTrace) :=
  match join (initState check) p obs1 with
  | Except.error _ => none
  | Except.ok tr1 =>
    match join tr1.state p obs2 with
    | Except.error _ => none
    | Except.ok tr2 => some (tr1, tr2)

/-- A concrete `Popen` handle used by the concrete-input theorems. -/
def pW : Popen := ⟨42, some 0⟩

/-- Observations of a run whose direct child exited naturally before the
timeout (waiter thread dead, exit code 0 available) but whose process group
still has a live member at the first probe — e.g. a detached grandchild. -/
def obsDetached : JoinObs := ⟨false, true, false, false, false, some 0, none, none⟩

/-- Observations of a run that survives SIGTERM and SIGKILL: every liveness
sample is `true` and no exit code ever becomes available. -/
def obsHang : JoinObs := ⟨true, true, true, true, true, none, none, none⟩

/-- Observations of a first `join` on a run that ignored SIGTERM and died
only at SIGKILL (thread dead by the final check, exit code -9). -/
def obsKilled : JoinObs := ⟨true, true, true, true, false, some (-9), none, none⟩

/-- Observations of a second `join` call made after `obsKilled` completed:
everything is dead by now. -/
def obsDone : JoinObs := ⟨false, false, false, false, false, some (-9), none, none⟩

/-- Observations of a clean run: child exited with code 7 before the
timeout and its whole group is gone. -/
def obsNat : JoinObs := ⟨false, false, false, false, false, some 7, none, none⟩

theorem fmt_terminating (s : String) :
    pyFormat msgTerminating [s] = Except.ok (s ++ ": is still alive. Terminating now...") := rfl

theorem fmt_sigterm (s : String) :
    pyFormat msgSigterm [s]
      = Except.ok (s ++ ": is still alive after SIGTERM. Pressing the big red button...") := rfl

theorem fmt_sigkill (s : String) :
    pyFormat msgSigkill [s] = Except.error "KeyError: self" := rfl

theorem fmt_popenfail (s : String) :
    ∃ m, pyFormat msgPopenFail [s] = Except.ok m := ⟨_, rfl⟩

/-- What `feedLoop` logs when the write of `b` raises `IOError`. -/
theorem fmt_writefail (b : String) :
    (pyFormat msgWriteFail [b, "IOError"]).toOption.getD ""
      = "Input: " ++ b ++ " failed to write to stdin due to\nIOError" := rfl

/-- Branch characterization of `join`: the three liveness decisions select
one of the three normal leaves, or the `KeyError` raised while formatting
the post-SIGKILL log message. -/
theorem join_eq (s0 : PWState) (p : Popen) (obs : JoinObs) :
    join s0 p obs =
      if aliveFn s0.check_pg_alive obs.t1 obs.g1 then
        if aliveFn s0.check_pg_alive obs.t2 obs.g2 then
          if obs.t3 then Except.error "KeyError: self"
          else Except.ok ⟨mkOutcome (sHard s0 obs) obs, sHard s0 obs,
            [(LogLevel.info, logTerminating p.pid), (LogLevel.warning, logSigterm p.pid)],
            [(SIGTERM, p.pid), (SIGKILL, p.pid)]⟩
        else Except.ok ⟨mkOutcome (sSoft s0 obs) obs, sSoft s0 obs,
          [(LogLevel.info, logTerminating p.pid)], [(SIGTERM, p.pid)]⟩
      else Except.ok ⟨mkOutcome (sQuick s0 obs) obs, sQuick s0 obs, [], []⟩ := by
  unfold join
  rw [fmt_terminating (toString p.pid), fmt_sigterm (toString p.pid),
      fmt_sigkill (toString p.pid)]
  rfl

/-- C1 (amended): for every run whose direct child exited naturally before
the configured timeout (the waiter thread is no longer alive at the first
check) and for which the liveness function consulted by `join` also reports
dead at that check — i.e. the group probe reports the group gone, or
`check_pg_alive` is disabled — `join` raises nothing, sends no signal, logs
nothing, leaves every escalation flag `false`, and returns an Outcome with
`timeout = killed = timeout_pg = killed_pg = false` and `returncode` equal to
the child's true exit code. -/
theorem join_natural_exit (check : Bool) (p : Popen) (obs : JoinObs) (code : Int)
    (ht : obs.t1 = false) (hg : aliveFn check obs.t1 obs.g1 = false)
    (hr : obs.returncode = some code) :
    join (initState check) p obs
      = Except.ok ⟨⟨some code, obs.stdout_res, obs.stderr_res, false, false, false, false⟩,
          initState check, [], []⟩ := by
  rw [join_eq]
  rw [ht] at hg
  simp [initState, sQuick, mkOutcome, ht, hr, hg]

/-- Witness for C1's amended theorem at a concrete clean run. -/
theorem join_natural_exit_w :
    join (initState true) pW obsNat
      = Except.ok ⟨⟨some 7, none, none, false, false, false, false⟩,
          initState true, [], []⟩ :=
  join_natural_exit true pW obsNat 7 rfl rfl rfl

/-- C1 counterexample: a run whose direct child exited naturally before the
timeout (waiter thread dead at the first check, exit code 0 available), yet
the group probe still reported the group alive, so the returned Outcome has
`timeout_pg = true` — not all four flags are false as the claim states. -/
theorem natural_exit_group_alive_cx :
    obsDetached.t1 = false ∧ obsDetached.returncode = some 0 ∧
    (join (initState true) pW obsDetached).toOption.map
        (fun tr => (tr.outcome.timeout, tr.outcome.killed,
                    tr.outcome.timeout_pg, tr.outcome.killed_pg))
      = some (false, false, true, false) :=
  ⟨rfl, rfl, rfl⟩

/-- C2 (amended): the returned `timeout_pg` equals `check_pg_alive AND (the
group probe reported alive at the first check)`, for every `join` call that
returns (the other disjunct covers the calls that raise).  In particular
`timeout_pg` does not depend on whether the direct child's waiter thread was
still running, so `timeout_pg = true` does not imply `timeout = true`. -/
theorem join_timeout_pg_eq (check : Bool) (p : Popen) (obs : JoinObs) :
    (join (initState check) p obs).toOption.map (fun tr => tr.outcome.timeout_pg)
        = some (check && obs.g1)
      ∨ (join (initState check) p obs).toOption = none := by
  obtain ⟨t1, g1, t2, g2, t3, rc, so, se⟩ := obs
  rw [join_eq]
  cases check <;> cases t1 <;> cases g1 <;> cases t2 <;> cases g2 <;> cases t3 <;>
    simp [initState, aliveFn, sQuick, sSoft, sHard, mkOutcome, Except.toOption]

/-- C2 counterexample: a run in which the returned Outcome has
`timeout_pg = true` but `timeout = false` (child exited before the timeout,
group probe reported a surviving group member). -/
theorem timeout_pg_without_timeout_cx :
    (join (initState true) pW obsDetached).toOption.map
        (fun tr => (tr.outcome.timeout_pg, tr.outcome.timeout))
      = some (true, false) := rfl

/-- C4: on the escalation-exhaustion path (waiter thread still alive after
SIGKILL) `join` does not log and return the partial Outcome — building the
log message raises `KeyError` (the template names the field
`self.process.pid` but the pid is passed positionally), and the exception
propagates to the caller. -/
theorem join_sigkill_survivor_raises :
    join (initState true) pW obsHang = Except.error "KeyError: self" := rfl

/-- C5: calling `send_signal` after the waiter thread has finished raises
`AttributeError` — the dead branch reads `self.process.pd`, an attribute
`Popen` does not have — instead of logging a warning. -/
theorem send_signal_dead_raises :
    send_signal false ["sleep", "5"] pW 15 = Except.error "AttributeError: pd" := rfl

/-- C3 (amended): across a second `join` call on the same wrapper only the
group-escalation flags are monotonic — if the first call returned
`timeout_pg = true` (resp. `killed_pg = true`), the second call's Outcome has
it `true` as well.  (`timeout` is unconditionally recomputed from current
thread liveness on every call and `killed` is recomputed whenever the
escalation branch re-runs, so those two can be cleared and the second
Outcome can differ from the first, as the counterexample shows.) -/
theorem join_second_call_pg_monotone (check : Bool) (p : Popen)
    (obs1 obs2 : JoinObs) :
    ((secondJoin check p obs1 obs2).all fun pr =>
      (!pr.1.outcome.timeout_pg || pr.2.outcome.timeout_pg)
        && (!pr.1.outcome.killed_pg || pr.2.outcome.killed_pg)) = true := by
  obtain ⟨t1, g1, t2, g2, t3, rc, so, se⟩ := obs1
  obtain ⟨u1, v1, u2, v2, u3, rc2, so2, se2⟩ := obs2
  cases check
  · cases t1 <;> cases t2 <;> cases t3 <;> cases u1 <;> cases u2 <;> cases u3 <;>
      simp [secondJoin, join_eq, initState, aliveFn, sQuick, sSoft, sHard,
        mkOutcome, Option.all]
  · cases g1 <;> cases g2 <;> cases t3 <;> cases v1 <;> cases v2 <;> cases u3 <;>
      simp [secondJoin, join_eq, initState, aliveFn, sQuick, sSoft, sHard,
        mkOutcome, Option.all]

/-- C3 counterexample: a timed-out run escalated to SIGKILL on its first
`join` (Outcome has `timeout = true`) and, once everything is dead, a second
`join` on the same object returns a different Outcome with
`timeout = false` — the flag set during the run was cleared, and the two
Outcomes are not bit-identical. -/
theorem second_join_differs_cx :
    (secondJoin true pW obsKilled obsDone).map
        (fun pr => (pr.1.outcome.timeout, pr.2.outcome.timeout))
      = some (true, false)
    ∧ (secondJoin true pW obsKilled obsDone).map
        (fun pr => decide (pr.1.outcome = pr.2.outcome))
      = some false :=
  ⟨rfl, rfl⟩

/-- C6: with `check_pg_alive` disabled, every `join` that returns yields an
Outcome with `timeout_pg = killed_pg = false` (the only other possibility is
the `KeyError` raise), and the result of `join` does not depend on the
group-probe observations at all — the escalation decisions are driven solely
by the waiter thread's liveness. -/
theorem join_no_pg_without_check (p : Popen) (obs : JoinObs) (b1 b2 : Bool) :
    ((join (initState false) p obs).toOption.map
          (fun tr => (tr.outcome.timeout_pg, tr.outcome.killed_pg))
        = some (false, false)
      ∨ (join (initState false) p obs).toOption = none)
    ∧ join (initState false) p obs
        = join (initState false) p
            ⟨obs.t1, b1, obs.t2, b2, obs.t3, obs.returncode,
             obs.stdout_res, obs.stderr_res⟩ := by
  obtain ⟨t1, g1, t2, g2, t3, rc, so, se⟩ := obs
  constructor
  · cases t1 <;> cases t2 <;> cases t3 <;>
      simp [join_eq, initState, aliveFn, sQuick, sSoft, sHard, mkOutcome,
        Except.toOption]
  · cases t1 <;> cases t2 <;> cases t3 <;>
      simp [join_eq, initState, aliveFn, sQuick, sSoft, sHard, mkOutcome]

/-- C7: when the OS refuses to spawn the child — whether with the `OSError`
that `run` catches, logs and re-raises, or with any other synchronous
exception such as the `IndexError` of an empty argument vector — `run`
propagates the failure to its caller (no retry: the spawn result is consumed
exactly once) and neither `self.process` nor `self.thread` is ever assigned:
no Background Waiter is started. -/
theorem run_launch_failure (command : List String) (e : SpawnErr) :
    (run command initHandles (Except.error e)).1.thread = none
    ∧ (run command initHandles (Except.error e)).1.process = none
    ∧ (run command initHandles (Except.error e)).2.2.toOption = none := by
  cases e with
  | oserror m =>
    obtain ⟨lm, hlm⟩ := fmt_popenfail (pyStrList command)
    simp [run, initHandles, hlm, Except.toOption]
  | other m =>
    simp [run, initHandles, Except.toOption]

/-- C8: the process-table probe `is_alive` invokes `execute` with
`check_pg_alive=False` (so it never recurses into group-liveness checking
for its own helper process), and whenever the `ps` query yields no group
identifiers — empty or whitespace-only captured output, which is also what a
structurally failed query leaves in the pipe — it returns `false`; being a
total function of the captured output, it raises nothing. -/
theorem is_alive_no_recurse_safe (pid : Int) (psStdout : String)
    (h : pyStrSplit psStdout = []) :
    is_alive_call.check_pg_alive = false ∧ is_alive pid psStdout = false := by
  refine ⟨rfl, ?_⟩
  unfold is_alive
  rw [h]
  rfl

/-- Witness for C8 at a concrete empty `ps` output. -/
theorem is_alive_no_recurse_safe_w :
    is_alive_call.check_pg_alive = false ∧ is_alive 1234 "" = false :=
  is_alive_no_recurse_safe 1234 "" rfl

/-- Splitting the staged-input loop at a point where every earlier write
succeeded: the loop processes the prefix (logging nothing) and continues
into the rest with the write counter advanced by the prefix's writes. -/
theorem feedLoop_append (pre rest : List DelayedInput) (io : Nat → Bool)
    (w : Nat) (h : ∀ k, k < writeCount pre → io (w + k) = true) :
    feedLoop (pre ++ rest) io w
      = ((feedLoop pre io w).1 ++ (feedLoop rest io (w + writeCount pre)).1,
         (feedLoop rest io (w + writeCount pre)).2) := by
  induction pre generalizing w with
  | nil => simp [feedLoop, writeCount]
  | cons d pre ih =>
    cases d with
    | int n =>
      have := ih w (fun k hk => h k hk)
      simp [feedLoop, writeCount, this]
    | float n =>
      have := ih w (fun k hk => h k hk)
      simp [feedLoop, writeCount, this]
    | bytes b =>
      have hw : io w = true := by
        have := h 0 (Nat.succ_pos _)
        simpa using this
      have harg : ∀ k, k < writeCount pre → io (w + 1 + k) = true := by
        intro k hk
        have := h (k + 1) (by simpa [writeCount] using Nat.succ_lt_succ hk)
        calc io (w + 1 + k) = io (w + (k + 1)) := by ring_nf
          _ = true := this
      have := ih (w + 1) harg
      simp [feedLoop, writeCount, hw, this]
      constructor
      · ring_nf
      · ring_nf
    | str s =>
      have := ih w (fun k hk => h k hk)
      simp [feedLoop, writeCount, this]
    | other =>
      have := ih w (fun k hk => h k hk)
      simp [feedLoop, writeCount, this]

/-- C9: if every staged write before some `bytes` step succeeds and the
write of that step raises `IOError`, then the feeder performs exactly the
prefix's actions (nothing from the remaining steps, whatever they are, and
no second attempt at the failed write), emits exactly one log record about
the failure, and the thread body still runs to completion, publishing the
captured streams — the error neither propagates nor fails the run. -/
theorem feeder_write_failure_stops (pre post : List DelayedInput) (b : String)
    (io : Nat → Bool) (comm : Option String × Option String)
    (h1 : ∀ k, k < writeCount pre → io k = true)
    (h2 : io (writeCount pre) = false) :
    target (pre ++ DelayedInput.bytes b :: post) io false comm
      = ⟨(feedLoop pre io 0).1,
         [(LogLevel.info, "Input: " ++ b ++ " failed to write to stdin due to\nIOError")],
         comm.1, comm.2⟩ := by
  have happ := feedLoop_append pre (DelayedInput.bytes b :: post) io 0
    (fun k hk => by simpa using h1 k hk)
  have hfail : feedLoop (DelayedInput.bytes b :: post) io (0 + writeCount pre)
      = ([], [(LogLevel.info,
          "Input: " ++ b ++ " failed to write to stdin due to\nIOError")]) := by
    have h0 : (0 + writeCount pre) = writeCount pre := Nat.zero_add _
    rw [h0]
    simp [feedLoop, h2, fmt_writefail]
  unfold target
  rw [happ, hfail]
  simp

/-- Witness for C9 at a concrete staged-input sequence whose second write
fails. -/
theorem feeder_write_failure_stops_w :
    target ([DelayedInput.int 1, DelayedInput.bytes "a"]
        ++ DelayedInput.bytes "x" :: [DelayedInput.bytes "c"])
        (fun k => decide (k = 0)) false (some "out", none)
      = ⟨[FeedAction.sleep 1, FeedAction.write "a"],
         [(LogLevel.info, "Input: x failed to write to stdin due to\nIOError")],
         some "out", none⟩ :=
  feeder_write_failure_stops [DelayedInput.int 1, DelayedInput.bytes "a"]
    [DelayedInput.bytes "c"] "x" (fun k => decide (k = 0)) (some "out", none)
    (fun k hk => by
      have h0 : k = 0 := Nat.lt_one_iff.mp hk
      subst h0
      rfl)
    rfl

/-- C10: a `delayed_inputs` entry that is neither an `int`, a `float` nor a
`bytes` object — in particular a Python `str`, despite the documented
`list[str]` type — falls through every `type(i) is ...` test: the feeder
performs no write and no sleep for it and simply continues with the next
entry, so the loop behaves exactly as if the entry were absent. -/
theorem feeder_skips_untyped_entries (s : String) (rest : List DelayedInput)
    (io : Nat → Bool) (w : Nat) :
    feedLoop (DelayedInput.str s :: rest) io w = feedLoop rest io w
    ∧ feedLoop (DelayedInput.other :: rest) io w = feedLoop rest io w :=
  ⟨rfl, rfl⟩

end GraderUtils
